import Mathlib

/-!
# Shallow embedding of the swap-app escrow program

This file embeds the two-phase escrow of the swap-app repository:

* `make_offer` (spec: `CreateOffer`): the maker deposits `token_a_offered_amount`
  of token A into a vault whose authority is the offer PDA, and an `Offer`
  ledger account keyed by the PDA seeds `(b"offer", maker, id)` is created
  (`src/programs/swap-app/src/lib.rs`, `src/programs/swap-app/src/instructions/make_offer.rs`).
* `take_offer` (spec: `SettleOffer`): the taker pays `token_b_wanted_amount` of
  token B to the maker, then the full current vault balance of token A is
  transferred to the taker, the vault is closed, and the offer account is
  closed back to the maker
  (`src/programs/swap-app/src/instructions/take_offer.rs`).

Identities (public keys) and mints are modelled as natural numbers; token
amounts are `u64` values, modelled as `Nat` (no arithmetic in the program can
overflow: the token program's transfer only moves existing balances).
Each instruction executes as one atomic Solana transaction: a failure aborts
the whole invocation with no persistent effect, which the embedding renders by
returning `Except.error` without a successor state.
-/

namespace SwapApp

/-- The Offer ledger entry.

Modelled from the spec: the `Offer` account struct is declared in the
repository's `state` module, which is not among the provided source files.
Its fields are reconstructed from the spec's data model (§3) and from the
field accesses in `take_offer.rs` (`offer.id`, `offer.bump`,
`offer.token_b_wanted_amount`, `has_one = maker`, `has_one = token_mint_a`,
`has_one = token_mint_b`). -/
structure Offer where
  id : Nat
  maker : Nat
  tokenMintA : Nat
  tokenMintB : Nat
  tokenBWantedAmount : Nat
  bump : Nat
deriving Repr, DecidableEq

/-- Errors, following the spec's taxonomy (§7).  Anchor's
`AccountNotInitialized` (a referenced account, including a closed offer, does
not exist) is rendered `notFound`; the token program's insufficient-funds
error is `insufficientBalance`; Anchor's `has_one` mint constraint violation
is `assetMismatch`; re-initialising an address already in use is
`allocationConflict`. -/
inductive SwapError where
  | notFound
  | unauthorized
  | assetMismatch
  | insufficientBalance
  | allocationConflict
deriving Repr, DecidableEq

/-- On-chain state visible to the program.

* `balance o m`: token balance of the associated token account of owner `o`
  for mint `m` (wallet accounts; the escrow vault is kept separately).
* `accountExists o m`: whether that associated token account exists.
* `offers maker id`: the `Offer` account at the PDA derived from
  `(b"offer", maker, id)`, if any.
* `vault maker id`: balance of the vault (the associated token account of the
  offer PDA for mint `token_mint_a`), `none` when the vault does not exist.
* `allocationsPaid p`: ghost counter of how many account allocations party `p`
  has paid for (Anchor `payer = ...`). -/
structure SwapState where
  balance : Nat → Nat → Nat
  accountExists : Nat → Nat → Bool
  offers : Nat → Nat → Option Offer
  vault : Nat → Nat → Option Nat
  allocationsPaid : Nat → Nat

/-- Pointwise update of a two-argument map. -/
def upd2 {α : Type} (f : Nat → Nat → α) (x y : Nat) (v : α) : Nat → Nat → α :=
  fun a b => if a = x ∧ b = y then v else f a b

/-- Debit `amount` from the token account `(owner, mint)`. -/
def debit (bal : Nat → Nat → Nat) (owner mint amount : Nat) : Nat → Nat → Nat :=
  upd2 bal owner mint (bal owner mint - amount)

/-- Credit `amount` to the token account `(owner, mint)`. -/
def credit (bal : Nat → Nat → Nat) (owner mint amount : Nat) : Nat → Nat → Nat :=
  upd2 bal owner mint (bal owner mint + amount)

/-- The Offer Ledger lookup of the spec (§4.1): `get(maker, id)`;
`none` is the spec's `NotFound`. -/
def get (s : SwapState) (maker id : Nat) : Option Offer :=
  s.offers maker id

/-- The `make_offer` instruction (`lib.rs` lines 27-38 plus the Anchor
account validation of `MakeOffer`, `make_offer.rs` lines 19-74).

Checks, in Anchor's account-declaration order:
1. `maker_token_account_a` (lines 36-42): the maker's associated token
   account for `token_mint_a` must exist.
2. `offer` (lines 46-53): `init` at seeds `(b"offer", maker, id)` fails when
   the address is already in use.
3. `vault` (lines 57-64): `init` of the vault (associated token account of
   the offer PDA) fails when it already exists.
Handler:
4. `send_offered_tokens_to_vault` (lines 78-91): `transfer_checked` of
   `token_a_offered_amount` from the maker's account to the vault; fails when
   the maker's balance is insufficient.
5. `save_offer` — modelled from the spec: `save_offer` is called from
   `lib.rs` line 37 but its body is not among the provided source files; per
   §4.2 step 2 it writes the Offer ledger entry with the given fields and the
   derived custodian address.
The maker pays for both allocations (offer account and vault). -/
def makeOffer (s : SwapState)
    (maker id tokenMintA tokenMintB tokenAOfferedAmount tokenBWantedAmount bump : Nat) :
    Except SwapError SwapState :=
  if s.accountExists maker tokenMintA = false then .error .notFound
  else
    match s.offers maker id with
    | some _ => .error .allocationConflict
    | none =>
      match s.vault maker id with
      | some _ => .error .allocationConflict
      | none =>
        if s.balance maker tokenMintA < tokenAOfferedAmount then .error .insufficientBalance
        else .ok { s with
          balance := debit s.balance maker tokenMintA tokenAOfferedAmount,
          offers := upd2 s.offers maker id
            (some ⟨id, maker, tokenMintA, tokenMintB, tokenBWantedAmount, bump⟩),
          vault := upd2 s.vault maker id (some tokenAOfferedAmount),
          allocationsPaid := fun p =>
            if p = maker then s.allocationsPaid p + 2 else s.allocationsPaid p }

/-- The `take_offer` instruction (`lib.rs` lines 44-51 plus the Anchor
account validation of `TakeOffer`, `take_offer.rs` lines 19-90).
`tokenMintA`/`tokenMintB` are the mint accounts supplied by the caller.

Checks, in Anchor's account-declaration order:
1. `taker_token_account_a` (lines 37-44): `init_if_needed`, payer `taker` —
   cannot fail.
2. `taker_token_account_b` (lines 47-53): the taker's associated token
   account for `token_mint_b` must exist.
3. `maker_token_account_b` (lines 56-63): `init_if_needed`, payer `taker` —
   cannot fail.
4. `offer` (lines 66-75): the account at seeds `(b"offer", maker, offer.id)`
   must exist (a closed offer fails deserialisation); `has_one = maker`;
   `has_one = token_mint_a` and `has_one = token_mint_b` (mint mismatch).
5. `vault` (lines 78-84): the vault must exist.
Handler:
6. `send_wanted_tokens_to_maker` (lines 93-102): `transfer_checked` of
   `offer.token_b_wanted_amount` of token B from taker to maker; fails when
   the taker's balance is insufficient.
7. `withdraw_and_close_vault` (lines 105-153): transfers the vault's current
   balance `ctx.accounts.vault.amount` of token A to the taker, signing with
   the re-derived PDA seeds, then closes the vault (residue to the taker).
8. `close = maker` on `offer` (line 68): the offer account is closed back to
   the maker when the instruction succeeds.
On success the taker has paid for the accounts created in steps 1 and 3. -/
def takeOffer (s : SwapState) (taker maker id tokenMintA tokenMintB : Nat) :
    Except SwapError SwapState :=
  if s.accountExists taker tokenMintB = false then .error .notFound
  else
    match s.offers maker id with
    | none => .error .notFound
    | some offer =>
      if offer.maker ≠ maker then .error .unauthorized
      else if offer.tokenMintA ≠ tokenMintA then .error .assetMismatch
      else if offer.tokenMintB ≠ tokenMintB then .error .assetMismatch
      else
        match s.vault maker id with
        | none => .error .notFound
        | some vaultAmount =>
          if s.balance taker tokenMintB < offer.tokenBWantedAmount then
            .error .insufficientBalance
          else .ok { s with
            balance :=
              credit
                (credit (debit s.balance taker tokenMintB offer.tokenBWantedAmount)
                  maker tokenMintB offer.tokenBWantedAmount)
                taker tokenMintA vaultAmount,
            accountExists :=
              upd2 (upd2 s.accountExists taker tokenMintA true) maker tokenMintB true,
            offers := upd2 s.offers maker id none,
            vault := upd2 s.vault maker id none,
            allocationsPaid := fun p =>
              if p = taker then
                s.allocationsPaid p
                  + (if s.accountExists taker tokenMintA then 0 else 1)
                  + (if s.accountExists maker tokenMintB then 0 else 1)
              else s.allocationsPaid p }

/-- Modelled from the spec: the generic asset-transfer collaborator of §6
(`transfer(from_holding, to_holding, amount, asset_type, authorizer)`), used
by a third party outside the escrow program to move its own tokens into the
custodian vault.  The vault is an ordinary token account at a public address,
so any holder of the vault's mint (`offer.token_mint_a`) may credit it; the
escrow program is not involved and cannot prevent it. -/
def externalTransferToVault (s : SwapState) (donor maker id amount : Nat) :
    Except SwapError SwapState :=
  match s.offers maker id, s.vault maker id with
  | some offer, some vaultAmount =>
    if s.accountExists donor offer.tokenMintA = false then .error .notFound
    else if s.balance donor offer.tokenMintA < amount then .error .insufficientBalance
    else .ok { s with
      balance := debit s.balance donor offer.tokenMintA amount,
      vault := upd2 s.vault maker id (some (vaultAmount + amount)) }
  | _, _ => .error .notFound

/-- The PDA seed literal `b"offer"` (ASCII bytes of "offer"). -/
def offerSeedTag : List Nat := [111, 102, 102, 101, 114]

/-- Little-endian byte decomposition of `n`, `k` bytes long. -/
def natToLeBytes : Nat → Nat → List Nat
  | _, 0 => []
  | n, k + 1 => n % 256 :: natToLeBytes (n / 256) k

/-- `u64::to_le_bytes`: the eight little-endian bytes of `id`. -/
def u64ToLeBytes (n : Nat) : List Nat :=
  natToLeBytes n 8

/-- Reassemble a little-endian byte list into a number. -/
def leBytesToNat : List Nat → Nat
  | [] => 0
  | b :: bs => b + 256 * leBytesToNat bs

/-- The PDA seeds used by `make_offer` to derive the offer address
(`make_offer.rs` line 50): `[b"offer", maker.key().as_ref(), id.to_le_bytes()]`. -/
def makeOfferSeeds (makerKey : List Nat) (id : Nat) : List (List Nat) :=
  [offerSeedTag, makerKey, u64ToLeBytes id]

/-- The signer seeds re-derived by `withdraw_and_close_vault`
(`take_offer.rs` lines 107-112):
`[b"offer", maker.key(), offer.id.to_le_bytes(), [offer.bump]]`. -/
def takeOfferSignerSeeds (makerKey : List Nat) (id bump : Nat) : List (List Nat) :=
  [offerSeedTag, makerKey, u64ToLeBytes id, [bump]]

/-! ## Basic lemmas about the state maps -/

theorem upd2_same {α : Type} (f : Nat → Nat → α) (x y : Nat) (v : α) :
    upd2 f x y v x y = v := by
  simp [upd2]

theorem upd2_ne {α : Type} (f : Nat → Nat → α) (x y : Nat) (v : α) {a b : Nat}
    (h : ¬(a = x ∧ b = y)) : upd2 f x y v a b = f a b := by
  simp [upd2, h]

/-- Inversion of a successful `make_offer`: the preconditions that were
checked, and the exact successor state. -/
theorem makeOffer_ok_inv {s s' : SwapState} {maker id a b dep want bump : Nat}
    (h : makeOffer s maker id a b dep want bump = .ok s') :
    s.accountExists maker a = true ∧
    s.offers maker id = none ∧
    s.vault maker id = none ∧
    dep ≤ s.balance maker a ∧
    s' = { s with
      balance := debit s.balance maker a dep,
      offers := upd2 s.offers maker id (some ⟨id, maker, a, b, want, bump⟩),
      vault := upd2 s.vault maker id (some dep),
      allocationsPaid := fun p =>
        if p = maker then s.allocationsPaid p + 2 else s.allocationsPaid p } := by
  unfold makeOffer at h
  split at h
  · exact absurd h (by simp)
  next hacc =>
    split at h
    · exact absurd h (by simp)
    next hoff =>
      split at h
      · exact absurd h (by simp)
      next hvault =>
        split at h
        · exact absurd h (by simp)
        next hbal =>
          injection h with h
          exact ⟨by simpa using hacc, hoff, hvault, Nat.not_lt.mp hbal, h.symm⟩

/-- Inversion of a successful `take_offer`: the preconditions that were
checked, and the exact successor state. -/
theorem takeOffer_ok_inv {s s' : SwapState} {taker maker id a b : Nat}
    (h : takeOffer s taker maker id a b = .ok s') :
    ∃ offer vaultAmount,
      s.accountExists taker b = true ∧
      s.offers maker id = some offer ∧
      offer.maker = maker ∧
      offer.tokenMintA = a ∧
      offer.tokenMintB = b ∧
      s.vault maker id = some vaultAmount ∧
      offer.tokenBWantedAmount ≤ s.balance taker b ∧
      s' = { s with
        balance :=
          credit
            (credit (debit s.balance taker b offer.tokenBWantedAmount)
              maker b offer.tokenBWantedAmount)
            taker a vaultAmount,
        accountExists := upd2 (upd2 s.accountExists taker a true) maker b true,
        offers := upd2 s.offers maker id none,
        vault := upd2 s.vault maker id none,
        allocationsPaid := fun p =>
          if p = taker then
            s.allocationsPaid p
              + (if s.accountExists taker a then 0 else 1)
              + (if s.accountExists maker b then 0 else 1)
          else s.allocationsPaid p } := by
  unfold takeOffer at h
  split at h
  · exact absurd h (by simp)
  next hacc =>
    split at h
    · exact absurd h (by simp)
    next offer hoff =>
      split at h
      · exact absurd h (by simp)
      next hmaker =>
        split at h
        · exact absurd h (by simp)
        next hma =>
          split at h
          · exact absurd h (by simp)
          next hmb =>
            split at h
            · exact absurd h (by simp)
            next vaultAmount hvault =>
              split at h
              · exact absurd h (by simp)
              next hbal =>
                injection h with h
                refine ⟨offer, vaultAmount, by simpa using hacc, hoff,
                  not_ne_iff.mp hmaker, not_ne_iff.mp hma, not_ne_iff.mp hmb,
                  hvault, Nat.not_lt.mp hbal, ?_⟩
                subst h
                have ha : offer.tokenMintA = a := not_ne_iff.mp hma
                have hb : offer.tokenMintB = b := not_ne_iff.mp hmb
                simp [ha, hb]

/-- A `make_offer` call succeeds whenever the maker's token-A account exists,
the `(maker, id)` addresses are free, and the maker can fund the deposit. -/
theorem makeOffer_ok_of {s : SwapState} {maker id a b dep want bump : Nat}
    (hacc : s.accountExists maker a = true)
    (hoff : s.offers maker id = none)
    (hvault : s.vault maker id = none)
    (hbal : dep ≤ s.balance maker a) :
    ∃ s', makeOffer s maker id a b dep want bump = .ok s' := by
  unfold makeOffer
  simp [hacc, hoff, hvault, Nat.not_lt.mpr hbal]

/-- A `take_offer` call succeeds whenever the offer and vault exist, the
supplied mints agree with the offer, the taker's token-B account exists and
holds at least `token_b_wanted_amount`. -/
theorem takeOffer_ok_of {s : SwapState} {taker maker id : Nat} {offer : Offer}
    {vaultAmount : Nat}
    (hacc : s.accountExists taker offer.tokenMintB = true)
    (hoff : s.offers maker id = some offer)
    (hmk : offer.maker = maker)
    (hvault : s.vault maker id = some vaultAmount)
    (hbal : offer.tokenBWantedAmount ≤ s.balance taker offer.tokenMintB) :
    ∃ s', takeOffer s taker maker id offer.tokenMintA offer.tokenMintB = .ok s' := by
  unfold takeOffer
  simp [hacc, hoff, hmk, hvault, Nat.not_lt.mpr hbal]

/-! ## Concrete scenario (spec §8)

Maker `1` deposits 100 units of mint `10` (token A) and wants 50 units of
mint `11` (token B), id `7`; taker `2` holds 50 units of token B; party `3`
is a bystander holding 70 units of token A. -/

/-- Initial chain state for the concrete scenario. -/
def initialState : SwapState where
  balance := fun o m =>
    if o = 1 ∧ m = 10 then 100
    else if o = 1 ∧ m = 11 then 50
    else if o = 2 ∧ m = 11 then 50
    else if o = 3 ∧ m = 10 then 70
    else 0
  accountExists := fun o m =>
    (o == 1 && m == 10) || (o == 2 && m == 11) || (o == 3 && m == 10) || (o == 1 && m == 11)
  offers := fun _ _ => none
  vault := fun _ _ => none
  allocationsPaid := fun _ => 0

/-- State after `make_offer(id 7, mint 10, mint 11, deposit 100, want 50)`. -/
def madeState : SwapState :=
  (makeOffer initialState 1 7 10 11 100 50 255).toOption.getD initialState

/-- State after taker `2` settles offer `(1, 7)`. -/
def settledState : SwapState :=
  (takeOffer madeState 2 1 7 10 11).toOption.getD madeState

/-- State after party `3` donates 50 units of token A into the live vault of
offer `(1, 7)` through the token program, outside the escrow program. -/
def creditedState : SwapState :=
  (externalTransferToVault madeState 3 1 7 50).toOption.getD madeState

/-- State after taker `2` settles offer `(1, 7)` on the donated-to vault. -/
def drainedState : SwapState :=
  (takeOffer creditedState 2 1 7 10 11).toOption.getD creditedState

/-- State after maker `1` settles its own offer `(1, 7)` (self-trade). -/
def selfSettledState : SwapState :=
  (takeOffer madeState 1 1 7 10 11).toOption.getD madeState

/-- State after `make_offer(id 21, mint 10, mint 10, deposit 40, want 30)`:
an offer whose deposited and wanted mints coincide (nothing in `make_offer`
rejects `token_mint_a = token_mint_b`). -/
def sameMintMadeState : SwapState :=
  (makeOffer initialState 1 21 10 10 40 30 253).toOption.getD initialState

/-- State after taker `3` settles the same-mint offer `(1, 21)`. -/
def sameMintSettledState : SwapState :=
  (takeOffer sameMintMadeState 3 1 21 10 10).toOption.getD sameMintMadeState

/-! ## Claim theorems -/

/-- C3 (counterexample).  The claim says that after every failed `CreateOffer`
call, for any reason, `get(maker, id)` returns `NotFound`.  False: a second
`make_offer` with an id already in use fails with `AllocationConflict`, yet
`get(1, 7)` still returns the first offer, not `NotFound`. -/
theorem makeOffer_failed_call_offer_still_retrievable :
    makeOffer initialState 1 7 10 11 100 50 255 = .ok madeState ∧
    makeOffer madeState 1 7 10 11 100 50 255 = .error .allocationConflict ∧
    get madeState 1 7 = some ⟨7, 1, 10, 11, 50, 255⟩ ∧
    ¬ get madeState 1 7 = none :=
  ⟨rfl, rfl, rfl, by decide⟩

/-- C3 (amended).  Every successful `make_offer` leaves the vault holding
exactly `token_a_offered_amount` and `get(maker, id)` returning the new
offer, and can only have succeeded from a state where no offer existed at
`(maker, id)`; a failed call persists no change (the transaction aborts
without a successor state), so if no offer existed at `(maker, id)` before a
failed call, `get(maker, id)` still returns `NotFound` afterwards. -/
theorem makeOffer_atomic_success (s s' : SwapState) (maker id a b dep want bump : Nat)
    (h : makeOffer s maker id a b dep want bump = .ok s') :
    s'.vault maker id = some dep ∧
    get s' maker id = some ⟨id, maker, a, b, want, bump⟩ ∧
    s.offers maker id = none := by
  obtain ⟨-, hoff, -, -, hs'⟩ := makeOffer_ok_inv h
  subst hs'
  exact ⟨upd2_same .., by simp [get, upd2_same], hoff⟩

/-- C3 (witness for the amended theorem). -/
theorem makeOffer_atomic_success_witness :
    madeState.vault 1 7 = some 100 ∧
    get madeState 1 7 = some ⟨7, 1, 10, 11, 50, 255⟩ ∧
    initialState.offers 1 7 = none :=
  makeOffer_atomic_success initialState madeState 1 7 10 11 100 50 255 rfl

/-- C4.  A `take_offer` call whose taker holds less token B than the offer's
`token_b_wanted_amount` fails with `InsufficientBalance`, and the offer is
left fully intact: the ledger entry is still retrievable and the vault
balance unchanged (the fallible taker-to-maker transfer runs before the
vault is drained or closed, and a failed transaction persists nothing). -/
theorem takeOffer_underfunded_taker_insufficient_balance (s : SwapState)
    (taker maker id a b vaultAmount : Nat) (offer : Offer)
    (hacc : s.accountExists taker b = true)
    (hoff : s.offers maker id = some offer)
    (hmk : offer.maker = maker)
    (hma : offer.tokenMintA = a)
    (hmb : offer.tokenMintB = b)
    (hvault : s.vault maker id = some vaultAmount)
    (hlt : s.balance taker b < offer.tokenBWantedAmount) :
    takeOffer s taker maker id a b = .error .insufficientBalance ∧
    get s maker id = some offer ∧
    s.vault maker id = some vaultAmount := by
  subst hma hmb
  refine ⟨?_, hoff, hvault⟩
  unfold takeOffer
  simp [hacc, hoff, hmk, hvault, hlt]

/-- C4 (witness): taker `2` holds 50 < 60 of token B against an offer
wanting 60. -/
theorem takeOffer_underfunded_taker_insufficient_balance_witness :
    takeOffer ((makeOffer initialState 1 8 10 11 30 60 254).toOption.getD initialState)
        2 1 8 10 11 = .error .insufficientBalance ∧
    get ((makeOffer initialState 1 8 10 11 30 60 254).toOption.getD initialState) 1 8 =
      some ⟨8, 1, 10, 11, 60, 254⟩ ∧
    ((makeOffer initialState 1 8 10 11 30 60 254).toOption.getD initialState).vault 1 8 =
      some 30 :=
  takeOffer_underfunded_taker_insufficient_balance
    ((makeOffer initialState 1 8 10 11 30 60 254).toOption.getD initialState)
    2 1 8 10 11 30 ⟨8, 1, 10, 11, 60, 254⟩ rfl rfl rfl rfl rfl rfl (by decide)

/-- C5.  After a successful settlement of offer `(maker, id)`, any second
`take_offer` against the same `(maker, id)` — any taker, any supplied mints —
fails with `NotFound`: the settlement closed both the offer account and its
vault. -/
theorem takeOffer_no_double_settle (s s' : SwapState) (taker maker id a b : Nat)
    (h : takeOffer s taker maker id a b = .ok s') :
    ∀ taker2 a2 b2, takeOffer s' taker2 maker id a2 b2 = .error .notFound := by
  obtain ⟨offer, vaultAmount, -, -, -, -, -, -, -, hs'⟩ := takeOffer_ok_inv h
  subst hs'
  intro taker2 a2 b2
  unfold takeOffer
  simp [upd2_same]

/-- C5 (witness): taker `3` retries the settled offer `(1, 7)`. -/
theorem takeOffer_no_double_settle_witness :
    takeOffer settledState 3 1 7 10 11 = .error .notFound :=
  takeOffer_no_double_settle madeState settledState 2 1 7 10 11 rfl 3 10 11

/-- C6.  While offer `(maker, id)` is live, a second `make_offer` with the
same `(maker, id)` — whatever its mints and amounts, provided the maker's
token account for the new call exists so that validation reaches the `init`
of the offer account — fails with `AllocationConflict`, and the first offer
remains intact: its ledger entry and vault balance are unchanged (the failed
transaction persists nothing). -/
theorem makeOffer_duplicate_id_allocation_conflict (s s1 : SwapState)
    (maker id a b dep want bump a2 b2 dep2 want2 bump2 : Nat)
    (hmake : makeOffer s maker id a b dep want bump = .ok s1)
    (hacc2 : s1.accountExists maker a2 = true) :
    makeOffer s1 maker id a2 b2 dep2 want2 bump2 = .error .allocationConflict ∧
    get s1 maker id = some ⟨id, maker, a, b, want, bump⟩ ∧
    s1.vault maker id = some dep := by
  obtain ⟨-, -, -, -, hs1⟩ := makeOffer_ok_inv hmake
  subst hs1
  refine ⟨?_, by simp [get, upd2_same], upd2_same ..⟩
  unfold makeOffer
  simp only at hacc2
  simp [hacc2, upd2_same]

/-- C6 (witness): the spec's scenario, `CreateOffer(7, A, B, 100, 50)` twice. -/
theorem makeOffer_duplicate_id_allocation_conflict_witness :
    makeOffer madeState 1 7 10 11 100 50 255 = .error .allocationConflict ∧
    get madeState 1 7 = some ⟨7, 1, 10, 11, 50, 255⟩ ∧
    madeState.vault 1 7 = some 100 :=
  makeOffer_duplicate_id_allocation_conflict initialState madeState
    1 7 10 11 100 50 255 10 11 100 50 255 rfl rfl

/-- C8.  A `take_offer` call whose supplied mint accounts disagree with the
mints recorded in the offer (`has_one = token_mint_a`, `has_one =
token_mint_b`) fails with `AssetMismatch`; the error is raised during
account validation, before either transfer, so no state change can persist. -/
theorem takeOffer_mint_mismatch_asset_mismatch (s : SwapState)
    (taker maker id a b : Nat) (offer : Offer)
    (hacc : s.accountExists taker b = true)
    (hoff : s.offers maker id = some offer)
    (hmk : offer.maker = maker)
    (hmm : offer.tokenMintA ≠ a ∨ offer.tokenMintB ≠ b) :
    takeOffer s taker maker id a b = .error .assetMismatch := by
  unfold takeOffer
  rw [hacc]
  simp only [Bool.true_eq_false, if_false, hoff, hmk]
  rcases hmm with hma | hmb
  · simp [hma]
  · by_cases hma : offer.tokenMintA = a <;> simp [hma, hmb]

/-- C8 (witness): taker `2` supplies mint `12` instead of the offer's
token-B mint `11` (its token account for mint `12` exists). -/
theorem takeOffer_mint_mismatch_asset_mismatch_witness :
    takeOffer
      { madeState with
        accountExists := upd2 madeState.accountExists 2 12 true }
      2 1 7 10 12 = .error .assetMismatch :=
  takeOffer_mint_mismatch_asset_mismatch
    { madeState with accountExists := upd2 madeState.accountExists 2 12 true }
    2 1 7 10 12 ⟨7, 1, 10, 11, 50, 255⟩
    (by decide) rfl rfl (Or.inr (by decide))

/-- C10.  `take_offer` does not require the receiving token accounts to
pre-exist: on every successful call the taker's token-A account and the
maker's token-B account exist afterwards (created by `init_if_needed` when
absent), the taker pays the allocation deposit for exactly the accounts that
were missing (none when both existed), and no other party pays for any
allocation. -/
theorem takeOffer_init_if_needed_allocation (s s' : SwapState)
    (taker maker id a b : Nat)
    (h : takeOffer s taker maker id a b = .ok s') :
    s'.accountExists taker a = true ∧
    s'.accountExists maker b = true ∧
    s'.allocationsPaid taker = s.allocationsPaid taker
      + (if s.accountExists taker a then 0 else 1)
      + (if s.accountExists maker b then 0 else 1) ∧
    ∀ p, p ≠ taker → s'.allocationsPaid p = s.allocationsPaid p := by
  obtain ⟨offer, vaultAmount, -, -, -, -, -, -, -, hs'⟩ := takeOffer_ok_inv h
  subst hs'
  refine ⟨?_, ?_, ?_, ?_⟩
  · by_cases hk : taker = maker ∧ a = b
    · simp [upd2, hk]
    · simp [upd2, hk]
  · simp [upd2_same]
  · simp
  · intro p hp
    simp [hp]

/-- C10 (witness): in the scenario settlement, taker `2` lacked its token-A
account, the maker had its token-B account, so exactly one allocation was
charged to the taker and none to the maker. -/
theorem takeOffer_init_if_needed_allocation_witness :
    settledState.accountExists 2 10 = true ∧
    settledState.accountExists 1 11 = true ∧
    settledState.allocationsPaid 2 = madeState.allocationsPaid 2
      + (if madeState.accountExists 2 10 then 0 else 1)
      + (if madeState.accountExists 1 11 then 0 else 1) ∧
    ∀ p, p ≠ 2 → settledState.allocationsPaid p = madeState.allocationsPaid p :=
  takeOffer_init_if_needed_allocation madeState settledState 2 1 7 10 11 rfl

/-! ## Byte-level facts about the PDA seed derivation -/

theorem leBytesToNat_natToLeBytes (k n : Nat) :
    leBytesToNat (natToLeBytes n k) = n % 256 ^ k := by
  induction k generalizing n with
  | zero => simp [natToLeBytes, leBytesToNat, Nat.mod_one]
  | succ k ih =>
    simp only [natToLeBytes, leBytesToNat, ih]
    rw [show (256 : Nat) ^ (k + 1) = 256 * 256 ^ k by ring, Nat.mod_mul]

theorem u64ToLeBytes_inj (m n : Nat) (hm : m < 2 ^ 64) (hn : n < 2 ^ 64)
    (h : u64ToLeBytes m = u64ToLeBytes n) : m = n := by
  have h2 := congrArg leBytesToNat h
  rw [u64ToLeBytes, u64ToLeBytes, leBytesToNat_natToLeBytes,
    leBytesToNat_natToLeBytes] at h2
  rw [show (256 : Nat) ^ 8 = 2 ^ 64 by norm_num, Nat.mod_eq_of_lt hm,
    Nat.mod_eq_of_lt hn] at h2
  exact h2

/-- C7.  The custodian handle is a pure, deterministic function of
`(maker, id)` — `makeOfferSeeds` is a function, so the same `(maker, id)`
always yields the same seeds; two distinct `(maker, id)` pairs (ids in `u64`
range) never yield the same seeds, so no two live offers share a custodian;
and the seeds `withdraw_and_close_vault` re-derives at settlement to
authorize the custodian are exactly the creation-time seeds extended with
the stored bump. -/
theorem custodianSeeds_deterministic_unique_and_reused
    (k1 k2 kk : List Nat) (i1 i2 id bump : Nat)
    (h1 : i1 < 2 ^ 64) (h2 : i2 < 2 ^ 64) :
    (makeOfferSeeds k1 i1 = makeOfferSeeds k2 i2 → k1 = k2 ∧ i1 = i2) ∧
    takeOfferSignerSeeds kk id bump = makeOfferSeeds kk id ++ [[bump]] := by
  refine ⟨fun h => ?_, rfl⟩
  simp only [makeOfferSeeds, List.cons.injEq, and_true] at h
  exact ⟨h.2.1, u64ToLeBytes_inj i1 i2 h1 h2 h.2.2⟩

/-- C7 (witness). -/
theorem custodianSeeds_deterministic_unique_and_reused_witness :
    (makeOfferSeeds [5] 7 = makeOfferSeeds [5] 7 → [5] = [5] ∧ 7 = 7) ∧
    takeOfferSignerSeeds [5] 7 255 = makeOfferSeeds [5] 7 ++ [[255]] :=
  custodianSeeds_deterministic_unique_and_reused [5] [5] [5] 7 7 7 255
    (by norm_num) (by norm_num)

/-- C1 (counterexample).  The claim quantifies over every successful
`SettleOffer` on an existing offer; three concrete successful settlements
refute it, one per clause the amendment changes.
(1) Self-trade: taker = maker (not rejected by the code) settles offer
`(1, 7)`; the token-B payment is a self-transfer, so the maker's token-B
balance stays 50 instead of increasing by `token_b_wanted_amount = 50`.
(2) Externally credited vault: after a deposit of 100 and a token-program
donation of 50 into the vault, taker `2` settles and its token-A balance
increases by 150, not by the originally deposited 100.
(3) Same-mint offer: `token_mint_a = token_mint_b = 10` (not rejected by the
code); taker `3` pays 30 and receives the 40 in the vault on the same
account, so its token-A balance increases by 10, not by the deposited 40
the vault held. -/
theorem takeOffer_exchange_counterexample_traces :
    (get madeState 1 7 = some ⟨7, 1, 10, 11, 50, 255⟩ ∧
      takeOffer madeState 1 1 7 10 11 = .ok selfSettledState ∧
      selfSettledState.balance 1 11 = madeState.balance 1 11 ∧
      ¬ selfSettledState.balance 1 11 = madeState.balance 1 11 + 50) ∧
    (makeOffer initialState 1 7 10 11 100 50 255 = .ok madeState ∧
      madeState.vault 1 7 = some 100 ∧
      externalTransferToVault madeState 3 1 7 50 = .ok creditedState ∧
      takeOffer creditedState 2 1 7 10 11 = .ok drainedState ∧
      ¬ drainedState.balance 2 10 = creditedState.balance 2 10 + 100) ∧
    (makeOffer initialState 1 21 10 10 40 30 253 = .ok sameMintMadeState ∧
      sameMintMadeState.vault 1 21 = some 40 ∧
      takeOffer sameMintMadeState 3 1 21 10 10 = .ok sameMintSettledState ∧
      sameMintSettledState.balance 3 10 = sameMintMadeState.balance 3 10 + 10 ∧
      ¬ sameMintSettledState.balance 3 10 = sameMintMadeState.balance 3 10 + 40) :=
  ⟨⟨rfl, rfl, rfl, by decide⟩,
   ⟨rfl, rfl, rfl, rfl, by decide⟩,
   ⟨rfl, rfl, rfl, rfl, by decide⟩⟩

/-- C1 (amended).  For every successful `take_offer`, from any state: the
offer's ledger entry and its custodian vault are both destroyed, so
`get(maker, id)` returns `NotFound`; if the taker is distinct from the maker,
the maker's token-B balance increases by exactly the offer's stored
`token_b_wanted_amount`; and if the offer's two mints are distinct, the
taker's token-A balance increases by exactly the vault's current balance at
settlement — which equals the amount originally deposited whenever the vault
was not credited after creation (the code transfers the current balance, not
the recorded deposit; cf. C2). -/
theorem takeOffer_settlement_exchange
    (s s' : SwapState) (taker maker id a b v : Nat) (offer : Offer)
    (htake : takeOffer s taker maker id a b = .ok s')
    (hoff : s.offers maker id = some offer)
    (hv : s.vault maker id = some v) :
    get s' maker id = none ∧
    s'.vault maker id = none ∧
    (taker ≠ maker →
      s'.balance maker b = s.balance maker b + offer.tokenBWantedAmount) ∧
    (a ≠ b → s'.balance taker a = s.balance taker a + v) := by
  obtain ⟨offer2, v2, -, hoff2, -, -, -, hv2, -, hs'⟩ := takeOffer_ok_inv htake
  rw [hoff] at hoff2
  rw [hv] at hv2
  injection hoff2 with hoff2
  injection hv2 with hv2
  subst hoff2 hv2
  subst hs'
  refine ⟨by simp [get, upd2_same], by simp [upd2_same], ?_, ?_⟩
  · intro hparty
    simp [credit, debit, upd2, Ne.symm hparty]
  · intro hmint
    simp [credit, debit, upd2, hmint]

/-- C1 (witness for the amended theorem): the spec's §8 scenario, taker `2`
distinct from maker `1`, mints `10 ≠ 11`, vault holding the 100 deposit. -/
theorem takeOffer_settlement_exchange_witness :
    get settledState 1 7 = none ∧
    settledState.vault 1 7 = none ∧
    settledState.balance 1 11 = madeState.balance 1 11 + 50 ∧
    settledState.balance 2 10 = madeState.balance 2 10 + 100 := by
  obtain ⟨h1, h2, h3, h4⟩ := takeOffer_settlement_exchange madeState settledState
    2 1 7 10 11 100 ⟨7, 1, 10, 11, 50, 255⟩ rfl rfl rfl
  exact ⟨h1, h2, h3 (by decide), h4 (by decide)⟩

/-- C2 (counterexample).  The claim says the settlement re-verifies that the
vault balance equals the originally deposited amount before draining it,
rather than transferring whatever the vault holds.  False:
`withdraw_and_close_vault` transfers `ctx.accounts.vault.amount` with no
check (the `Offer` account does not even record the deposit).  After a
deposit of 100 and an external donation of 50 into the vault, the settlement
succeeds and the taker receives 150, not the deposited 100. -/
theorem takeOffer_transfers_donated_balance :
    makeOffer initialState 1 7 10 11 100 50 255 = .ok madeState ∧
    madeState.vault 1 7 = some 100 ∧
    externalTransferToVault madeState 3 1 7 50 = .ok creditedState ∧
    creditedState.vault 1 7 = some 150 ∧
    takeOffer creditedState 2 1 7 10 11 = .ok drainedState ∧
    drainedState.balance 2 10 = creditedState.balance 2 10 + 150 ∧
    ¬ drainedState.balance 2 10 = creditedState.balance 2 10 + 100 :=
  ⟨rfl, rfl, rfl, rfl, rfl, rfl, by decide⟩

/-- C2 (amended).  Every successful settlement transfers to the taker the
vault's entire current balance — whatever it holds at the time of the call —
with no re-verification against the amount deposited at creation. -/
theorem takeOffer_transfers_full_vault_balance
    (s s' : SwapState) (taker maker id a b v : Nat)
    (htake : takeOffer s taker maker id a b = .ok s')
    (hv : s.vault maker id = some v)
    (hmint : a ≠ b) :
    s'.balance taker a = s.balance taker a + v := by
  obtain ⟨offer, v2, -, -, -, -, -, hv2, -, hs'⟩ := takeOffer_ok_inv htake
  rw [hv] at hv2
  injection hv2 with hv2
  subst hv2
  subst hs'
  simp [credit, debit, upd2, hmint]

/-- C2 (witness for the amended theorem): the donated-to vault holds 150 and
the taker receives exactly 150. -/
theorem takeOffer_transfers_full_vault_balance_witness :
    drainedState.balance 2 10 = creditedState.balance 2 10 + 150 :=
  takeOffer_transfers_full_vault_balance creditedState drainedState
    2 1 7 10 11 150 rfl rfl (by decide)

/-- C9.  Neither edge case is rejected by any check in the escrow logic: a
`make_offer` with `token_a_offered_amount = 0` succeeds whenever an ordinary
call would (the deposit transfer never lacks funds), and a `take_offer` in
which the taker is the maker itself succeeds whenever an ordinary call
would (no check compares taker and maker). -/
theorem zero_deposit_and_self_trade_not_rejected
    (s t : SwapState) (maker id a b want bump maker2 id2 v : Nat) (offer : Offer) :
    (s.accountExists maker a = true → s.offers maker id = none →
      s.vault maker id = none →
      ∃ s1, makeOffer s maker id a b 0 want bump = .ok s1) ∧
    (t.accountExists maker2 offer.tokenMintB = true →
      t.offers maker2 id2 = some offer →
      offer.maker = maker2 →
      t.vault maker2 id2 = some v →
      offer.tokenBWantedAmount ≤ t.balance maker2 offer.tokenMintB →
      ∃ t1, takeOffer t maker2 maker2 id2 offer.tokenMintA offer.tokenMintB = .ok t1) :=
  ⟨fun h1 h2 h3 => makeOffer_ok_of h1 h2 h3 (Nat.zero_le _),
   fun h1 h2 h3 h4 h5 => takeOffer_ok_of h1 h2 h3 h4 h5⟩

/-- C9 (witness): a zero-amount offer from the scenario's initial state, and
maker `1` settling its own offer `(1, 7)`. -/
theorem zero_deposit_and_self_trade_not_rejected_witness :
    (∃ s1, makeOffer initialState 1 20 10 11 0 5 255 = .ok s1) ∧
    (∃ t1, takeOffer madeState 1 1 7 10 11 = .ok t1) :=
  ⟨(zero_deposit_and_self_trade_not_rejected initialState madeState
      1 20 10 11 5 255 1 7 100 ⟨7, 1, 10, 11, 50, 255⟩).1 rfl rfl rfl,
   (zero_deposit_and_self_trade_not_rejected initialState madeState
      1 20 10 11 5 255 1 7 100 ⟨7, 1, 10, 11, 50, 255⟩).2 rfl rfl rfl rfl
      (by decide)⟩

end SwapApp
